import Mathlib

/-!
Verification of the metrics registry and HTTP scrape endpoint of
manta-rebalancer (src/rebalancer/src/metrics.rs), as a shallow embedding.

Modelling choices, each anchored to the source:
* The registry `HashMap<&'static str, Metrics>` is modelled as an association
  list `List (String × Metrics)` with first-match lookup (`mapGet`) and
  replace-first update (`mapSet`); the maps the program builds have distinct
  keys, so this matches hash-map semantics.
* Each prometheus instrument is modelled by its observable state: the constant
  labels it was registered with and its current value(s).  The `f64` scalar a
  Counter or Gauge holds is modelled as an exact rational (`Rat`): the
  arithmetic the prometheus crate performs (`inc`, `inc_by`, `set`, `observe`)
  is modelled exactly.
* The `val as f64` integer-to-float casts that metrics.rs itself performs
  (gauge_set line 104, counter_vec_inc_by line 132, counter_inc_by line 157)
  are modelled faithfully by `f64OfNat`: a Rust integer-to-float cast rounds
  to the nearest representable double, ties to even (IEEE roundTiesToEven, per
  the Rust reference).  For n < 2^64 (the usize/u64 range) the nearest double
  is the nearest multiple of 2^(bitlength n - 53) (no overflow to infinity),
  which is what `f64OfNat` computes; below 2^53 the cast is exact.
* The state mutation the Rust code performs through interior mutability is
  modelled by explicit state passing: each update operation takes the registry
  and returns the updated registry together with the list of error-log lines
  it emitted (the `error!` calls in metrics.rs).
* The per-request handler closure passed to `service_fn_ok` in `start_server`
  is modelled by `scrape_handler`, parameterised over the gathered metric
  families and the text encoder (the prometheus `TextEncoder` is external to
  this file's source; its `encode`/`format_type` are inputs).  The `unwrap()`
  on the encode result is modelled as a `panicked` outcome.
-/

/-- Number of distinct doubles between consecutive powers of two: a double has
a 53-bit significand, so for `2 ^ 53 ≤ n` the representable values near `n`
are the multiples of `2 ^ (bitlength n - 53)`. -/
def float53 : Nat := 2 ^ 53

/-- Round `n` to the nearest multiple of `2 ^ k`, ties to even (IEEE
roundTiesToEven, the mode Rust integer-to-float casts use). -/
def roundToMultiple (n k : Nat) : Nat :=
  let p := 2 ^ k
  let q := n / p
  let r := n % p
  if 2 * r < p then q * p
  else if p < 2 * r then (q + 1) * p
  else if q % 2 = 0 then q * p else (q + 1) * p

/-- Fuelled computation of the binade offset: the number of halvings needed to
bring `m` strictly below `2 ^ 53`; this is `bitlength m - 53` when
`m ≥ 2 ^ 53`, and `0` otherwise.  Fuel `m` suffices since `m` halves each
step. -/
def f64ExpAux (fuel m : Nat) : Nat :=
  match fuel with
  | 0 => 0
  | Nat.succ f => if m < float53 then 0 else f64ExpAux f (m / 2) + 1

/-- The value of the Rust cast `n as f64` for an unsigned integer `n` in the
`usize`/`u64` range, returned as the exact natural number the resulting double
denotes: `n` rounded to the nearest representable double, ties to even. -/
def f64OfNat (n : Nat) : Nat :=
  roundToMultiple n (f64ExpAux n n)

/-- First-match lookup in an association list: the model of
`HashMap::get`. -/
def mapGet {α : Type} : List (String × α) → String → Option α
  | [], _ => none
  | p :: rest, key => if p.1 = key then some p.2 else mapGet rest key

/-- Replace-first update in an association list: the model of storing a new
instrument state under an existing key (the Rust code mutates the instrument
in place through interior mutability). -/
def mapSet {α : Type} : List (String × α) → String → α → List (String × α)
  | [], _, _ => []
  | p :: rest, key, v =>
    if p.1 = key then (p.1, v) :: rest else p :: mapSet rest key v

/-- State of a prometheus `CounterVec` with one variable label dimension (all
three CounterVecs in metrics.rs have exactly one): the constant labels, the
variable label name, and the map from label value ("bucket") to the bucket's
current value.  Buckets absent from the list have never been created and read
as zero. -/
structure CounterVecState where
  constLabels : List (String × String)
  varLabel : String
  buckets : List (String × Rat)
deriving DecidableEq

/-- State of a prometheus `Counter`: constant labels and current value. -/
structure CounterState where
  constLabels : List (String × String)
  value : Rat
deriving DecidableEq

/-- State of a prometheus `Gauge`: constant labels and current value. -/
structure GaugeState where
  constLabels : List (String × String)
  value : Rat
deriving DecidableEq

/-- State of a prometheus `Histogram`: constant labels and the observations
recorded so far (bucket counts, sum and count are all determined by this
list). -/
structure HistogramState where
  constLabels : List (String × String)
  observations : List Rat
deriving DecidableEq

/-- The `Metrics` enum of metrics.rs (lines 58-64): one variant per
prometheus instrument kind stored in the registry map. -/
inductive Metrics where
  | MetricsCounterVec : CounterVecState → Metrics
  | MetricsCounter : CounterState → Metrics
  | MetricsGauge : GaugeState → Metrics
  | MetricsHistogram : HistogramState → Metrics
deriving DecidableEq

/-- `MetricsMap` of metrics.rs line 23: the registry mapping metric-name keys
to instruments. -/
abbrev MetricsMap := List (String × Metrics)

/-- Whether an instrument is the Gauge variant. -/
def isGauge : Metrics → Bool
  | Metrics.MetricsGauge _ => true
  | _ => false

/-- The error line `error!(slog_scope::logger(), "Invalid metric: {}", key)`
each update operation emits when the key is absent. -/
def invalidMetricLog (key : String) : String := "Invalid metric: " ++ key

/-- `gauge_inc` (metrics.rs lines 71-83): if `key` maps to a Gauge, increment
it by 1; if it maps to another variant, do nothing; if absent, log the invalid
key.  Returns the new registry and the log lines emitted. -/
def gauge_inc (metrics : MetricsMap) (key : String) : MetricsMap × List String :=
  match mapGet metrics key with
  | some metric =>
    match metric with
    | Metrics.MetricsGauge g =>
      (mapSet metrics key (Metrics.MetricsGauge { g with value := g.value + 1 }), [])
    | _ => (metrics, [])
  | none => (metrics, [invalidMetricLog key])

/-- `gauge_dec` (metrics.rs lines 85-97): decrement a Gauge by 1; same
no-op/log contract as `gauge_inc`. -/
def gauge_dec (metrics : MetricsMap) (key : String) : MetricsMap × List String :=
  match mapGet metrics key with
  | some metric =>
    match metric with
    | Metrics.MetricsGauge g =>
      (mapSet metrics key (Metrics.MetricsGauge { g with value := g.value - 1 }), [])
    | _ => (metrics, [])
  | none => (metrics, [invalidMetricLog key])

/-- `gauge_set` (metrics.rs lines 99-114): `let num = val as f64; g.set(num)`.
Sets a Gauge to the double value of `val : usize`; same no-op/log contract. -/
def gauge_set (metrics : MetricsMap) (key : String) (val : Nat) :
    MetricsMap × List String :=
  let num : Rat := ((f64OfNat val : Nat) : Rat)
  match mapGet metrics key with
  | some metric =>
    match metric with
    | Metrics.MetricsGauge g =>
      (mapSet metrics key (Metrics.MetricsGauge { g with value := num }), [])
    | _ => (metrics, [])
  | none => (metrics, [invalidMetricLog key])

/-- `with_label_values(&[b]).inc_by(n)`: add `n` to bucket `b`, creating it at
zero first if it has never been used (prometheus creates children lazily). -/
def bucketIncBy : List (String × Rat) → String → Rat → List (String × Rat)
  | [], b, n => [(b, n)]
  | p :: rest, b, n =>
    if p.1 = b then (p.1, p.2 + n) :: rest else p :: bucketIncBy rest b n

/-- Current value of bucket `b`: zero if the bucket was never created. -/
def bucketGet (bs : List (String × Rat)) (b : String) : Rat :=
  (mapGet bs b).getD 0

/-- `counter_vec_inc_by` (metrics.rs lines 126-149): `let num = val as f64`;
if `key` maps to a CounterVec, increment its reserved `total` bucket by `num`
and, when a bucket was supplied, that bucket by `num` as well; other variants
are a silent no-op; an absent key logs the invalid key. -/
def counter_vec_inc_by (metrics : MetricsMap) (key : String)
    (bucket : Option String) (val : Nat) : MetricsMap × List String :=
  let num : Rat := ((f64OfNat val : Nat) : Rat)
  match mapGet metrics key with
  | some metric =>
    match metric with
    | Metrics.MetricsCounterVec c =>
      let c1 := { c with buckets := bucketIncBy c.buckets "total" num }
      let c2 :=
        match bucket with
        | some b => { c1 with buckets := bucketIncBy c1.buckets b num }
        | none => c1
      (mapSet metrics key (Metrics.MetricsCounterVec c2), [])
    | _ => (metrics, [])
  | none => (metrics, [invalidMetricLog key])

/-- `counter_vec_inc` (metrics.rs lines 117-123): delegates to
`counter_vec_inc_by` with value 1. -/
def counter_vec_inc (metrics : MetricsMap) (key : String)
    (bucket : Option String) : MetricsMap × List String :=
  counter_vec_inc_by metrics key bucket 1

/-- `counter_inc_by` (metrics.rs lines 152-166): `let num = val as f64`; add
`num` to a plain Counter; other variants are a silent no-op; an absent key
logs the invalid key. -/
def counter_inc_by (metrics : MetricsMap) (key : String) (val : Nat) :
    MetricsMap × List String :=
  let num : Rat := ((f64OfNat val : Nat) : Rat)
  match mapGet metrics key with
  | some metric =>
    match metric with
    | Metrics.MetricsCounter c =>
      (mapSet metrics key (Metrics.MetricsCounter { c with value := c.value + num }), [])
    | _ => (metrics, [])
  | none => (metrics, [invalidMetricLog key])

/-- `histogram_observe` (metrics.rs lines 168-181): record an observation
(`val : f64`, modelled as an exact rational) into a Histogram; other variants
are a silent no-op; an absent key logs the invalid key. -/
def histogram_observe (metrics : MetricsMap) (key : String) (val : Rat) :
    MetricsMap × List String :=
  match mapGet metrics key with
  | some metric =>
    match metric with
    | Metrics.MetricsHistogram h =>
      (mapSet metrics key
        (Metrics.MetricsHistogram { h with observations := h.observations ++ [val] }), [])
    | _ => (metrics, [])
  | none => (metrics, [invalidMetricLog key])

/-- `ConfigMetrics` (metrics.rs lines 31-40). -/
structure ConfigMetrics where
  host : String
  port : Nat
  datacenter : String
  service : String
  server : String

/-- The `Default` impl for `ConfigMetrics` (metrics.rs lines 42-52);
`Ipv4Addr::UNSPECIFIED.to_string()` is `"0.0.0.0"`. -/
def defaultConfigMetrics : ConfigMetrics :=
  { host := "0.0.0.0", port := 8878, datacenter := "development",
    service := "1.rebalancer.localhost", server := "127.0.0.1" }

/-- Metric-name key constant (metrics.rs line 25). -/
def OBJECT_COUNT : String := "object_count"

/-- Metric-name key constant (metrics.rs line 26). -/
def ERROR_COUNT : String := "error_count"

/-- Metric-name key constant (metrics.rs line 27). -/
def REQUEST_COUNT : String := "request_count"

/-- Metric-name key constant (metrics.rs line 28). -/
def BYTES_COUNT : String := "bytes_count"

/-- Metric-name key constant (metrics.rs line 29). -/
def ASSIGNMENT_TIME : String := "assignment_time"

/-- `register_metrics` (metrics.rs lines 191-267).  `hostnameResult` models
`gethostname().into_string()`: `none` is the failure case, recovered by
`unwrap_or_else(|_| String::from("unknown"))`.  The first component is the
returned registry; the second is the constant-label set published to the
process-wide `METRICS_LABELS` mutex (write-once, lines 208-209), built in the
insertion order of lines 203-206.  Each instrument is registered carrying the
label set as constant labels. -/
def register_metrics (labels : ConfigMetrics) (hostnameResult : Option String) :
    MetricsMap × List (String × String) :=
  let hostname := hostnameResult.getD "unknown"
  let const_labels : List (String × String) :=
    [("service", labels.service), ("server", labels.server),
     ("datacenter", labels.datacenter), ("zonename", hostname)]
  let metrics : MetricsMap :=
    [(REQUEST_COUNT,
        Metrics.MetricsCounterVec
          { constLabels := const_labels, varLabel := "req", buckets := [] }),
     (OBJECT_COUNT,
        Metrics.MetricsCounterVec
          { constLabels := const_labels, varLabel := "type", buckets := [] }),
     (ERROR_COUNT,
        Metrics.MetricsCounterVec
          { constLabels := const_labels, varLabel := "error", buckets := [] }),
     (BYTES_COUNT,
        Metrics.MetricsCounter { constLabels := const_labels, value := 0 }),
     (ASSIGNMENT_TIME,
        Metrics.MetricsHistogram { constLabels := const_labels, observations := [] })]
  (metrics, const_labels)

/-- An incoming HTTP request as the handler sees it; the handler binds it as
`_: Request<Body>` and never inspects it. -/
structure HttpRequest where
  method : String
  path : String
  headers : List (String × String)
  body : String

/-- What a single invocation of the scrape handler produces: a complete HTTP
response, or a panic (the `unwrap()` on the encode result failing), which
terminates that request without a valid body. -/
inductive HandlerOutcome where
  | response : Nat → String → String → HandlerOutcome
  | panicked : HandlerOutcome
deriving DecidableEq

/-- A metric family as gathered by `prometheus::gather()`: name, help text,
and samples (label set and value). -/
structure MetricFamily where
  name : String
  help : String
  samples : List (List (String × String) × Rat)

/-- The prometheus `TextEncoder` as the handler uses it: its fallible
`encode` into a buffer and its declared `format_type` MIME string (for the
real crate, `"text/plain; version=0.0.4"`). -/
structure TextEncoderModel where
  encode : List MetricFamily → Except String String
  format_type : String

/-- The per-request closure passed to `service_fn_ok` in `start_server`
(metrics.rs lines 280-299): ignore the request, gather the current metric
families (passed in as `families`), encode them — panicking via `unwrap()` if
encoding fails — and otherwise answer 200 OK with the encoder's format type as
Content-Type and the encoded text as body.  The second component is the log
lines the handler emits: the closure contains no logging call, so it is
always empty. -/
def scrape_handler (encoder : TextEncoderModel) (families : List MetricFamily)
    (req : HttpRequest) : HandlerOutcome × List String :=
  match encoder.encode families with
  | Except.ok buffer => (HandlerOutcome.response 200 encoder.format_type buffer, [])
  | Except.error _ => (HandlerOutcome.panicked, [])

/-- Read a CounterVec bucket through the registry. -/
def cvBucket (m : MetricsMap) (key b : String) : Option Rat :=
  match mapGet m key with
  | some (Metrics.MetricsCounterVec c) => some (bucketGet c.buckets b)
  | _ => none

/-- Read a Gauge value through the registry. -/
def gaugeValue (m : MetricsMap) (key : String) : Option Rat :=
  match mapGet m key with
  | some (Metrics.MetricsGauge g) => some g.value
  | _ => none

example : f64OfNat 7 = 7 := by decide
example : f64OfNat (2 ^ 53) = 2 ^ 53 := by decide
example : f64OfNat 9007199254740993 = 9007199254740992 := by decide
example : gauge_inc [] "nope" = ([], [invalidMetricLog "nope"]) := rfl

theorem roundToMultiple_zero (n : Nat) : roundToMultiple n 0 = n := by
  simp [roundToMultiple, Nat.mod_one, Nat.div_one]

theorem f64ExpAux_of_lt (fuel m : Nat) (h : m < float53) : f64ExpAux fuel m = 0 := by
  cases fuel with
  | zero => rfl
  | succ f => simp [f64ExpAux, h]

theorem f64OfNat_of_le (n : Nat) (h : n ≤ 2 ^ 53) : f64OfNat n = n := by
  rcases Nat.lt_or_eq_of_le h with hlt | heq
  · have h0 : f64ExpAux n n = 0 := f64ExpAux_of_lt n n hlt
    rw [f64OfNat, h0, roundToMultiple_zero]
  · subst heq
    decide

theorem mapGet_mapSet_eq {α : Type} (m : List (String × α)) (k : String) (v w : α)
    (h : mapGet m k = some w) : mapGet (mapSet m k v) k = some v := by
  induction m with
  | nil => simp [mapGet] at h
  | cons p rest ih =>
    by_cases hp : p.1 = k
    · simp [mapSet, hp, mapGet]
    · simp only [mapGet, hp, if_false] at h
      simp [mapSet, hp, mapGet, ih h]

theorem mapGet_mapSet_ne {α : Type} (m : List (String × α)) (k k2 : String) (v : α)
    (h : k2 ≠ k) : mapGet (mapSet m k v) k2 = mapGet m k2 := by
  induction m with
  | nil => rfl
  | cons p rest ih =>
    by_cases hp : p.1 = k
    · have hkk : k ≠ k2 := fun hh => h hh.symm
      simp [mapSet, hp, mapGet, hkk]
    · simp [mapSet, hp, mapGet, ih]

theorem bucketGet_bucketIncBy_eq (bs : List (String × Rat)) (b : String) (n : Rat) :
    bucketGet (bucketIncBy bs b n) b = bucketGet bs b + n := by
  induction bs with
  | nil => simp [bucketIncBy, bucketGet, mapGet]
  | cons p rest ih =>
    by_cases hp : p.1 = b
    · simp [bucketIncBy, hp, bucketGet, mapGet]
    · simp only [bucketIncBy, hp, if_false]
      simp only [bucketGet, mapGet, hp, if_false] at ih ⊢
      exact ih

theorem bucketGet_bucketIncBy_ne (bs : List (String × Rat)) (b x : String) (n : Rat)
    (h : x ≠ b) : bucketGet (bucketIncBy bs b n) x = bucketGet bs x := by
  induction bs with
  | nil =>
    have hbx : b ≠ x := fun hh => h hh.symm
    simp [bucketIncBy, bucketGet, mapGet, hbx]
  | cons p rest ih =>
    by_cases hp : p.1 = b
    · have hbx : b ≠ x := fun hh => h hh.symm
      simp [bucketIncBy, hp, bucketGet, mapGet, hbx]
    · by_cases hx : p.1 = x
      · simp [bucketIncBy, hp, bucketGet, mapGet, hx, h]
      · simp only [bucketIncBy, hp, if_false]
        simp only [bucketGet, mapGet, hx, if_false] at ih ⊢
        exact ih

/-- C1: for every update operation and every key — the claim as frozen states
that both the absent-key case and the wrong-variant case leave every
instrument unchanged AND emit exactly one error log line.  The code only logs
in the absent-key (`None`) arm; a present key bound to the wrong variant is a
silent no-op (the `if let` simply does not fire), emitting no log at all.
Amended contract, proved here: an absent key is a no-op emitting exactly the
one log line naming the key, for all seven operations; a present key of the
wrong variant is a no-op emitting no log line; every operation returns
normally (all operations are total functions). -/
theorem C1_update_noop_contract (m : MetricsMap) (key : String) :
    (mapGet m key = none →
      gauge_inc m key = (m, [invalidMetricLog key]) ∧
      gauge_dec m key = (m, [invalidMetricLog key]) ∧
      (∀ v, gauge_set m key v = (m, [invalidMetricLog key])) ∧
      (∀ v, counter_inc_by m key v = (m, [invalidMetricLog key])) ∧
      (∀ b, counter_vec_inc m key b = (m, [invalidMetricLog key])) ∧
      (∀ b v, counter_vec_inc_by m key b v = (m, [invalidMetricLog key])) ∧
      (∀ v, histogram_observe m key v = (m, [invalidMetricLog key]))) ∧
    (∀ inst, mapGet m key = some inst →
      ((∀ g, inst ≠ Metrics.MetricsGauge g) →
        gauge_inc m key = (m, []) ∧
        gauge_dec m key = (m, []) ∧
        ∀ v, gauge_set m key v = (m, [])) ∧
      ((∀ c, inst ≠ Metrics.MetricsCounter c) →
        ∀ v, counter_inc_by m key v = (m, [])) ∧
      ((∀ c, inst ≠ Metrics.MetricsCounterVec c) →
        (∀ b, counter_vec_inc m key b = (m, [])) ∧
        ∀ b v, counter_vec_inc_by m key b v = (m, [])) ∧
      ((∀ h, inst ≠ Metrics.MetricsHistogram h) →
        ∀ v, histogram_observe m key v = (m, []))) := by
  constructor
  · intro hnone
    refine ⟨?_, ?_, ?_, ?_, ?_, ?_, ?_⟩ <;>
      simp [gauge_inc, gauge_dec, gauge_set, counter_inc_by, counter_vec_inc,
        counter_vec_inc_by, histogram_observe, hnone]
  · intro inst hsome
    cases inst with
    | MetricsCounterVec c =>
      refine ⟨fun _ => ?_, fun _ v => ?_, fun h => absurd rfl (h c), fun _ v => ?_⟩
      · exact ⟨by simp [gauge_inc, hsome], by simp [gauge_dec, hsome],
          fun v => by simp [gauge_set, hsome]⟩
      · simp [counter_inc_by, hsome]
      · simp [histogram_observe, hsome]
    | MetricsCounter c =>
      refine ⟨fun _ => ?_, fun h => absurd rfl (h c), fun _ => ?_, fun _ v => ?_⟩
      · exact ⟨by simp [gauge_inc, hsome], by simp [gauge_dec, hsome],
          fun v => by simp [gauge_set, hsome]⟩
      · exact ⟨fun b => by simp [counter_vec_inc, counter_vec_inc_by, hsome],
          fun b v => by simp [counter_vec_inc_by, hsome]⟩
      · simp [histogram_observe, hsome]
    | MetricsGauge g =>
      refine ⟨fun h => absurd rfl (h g), fun _ v => ?_, fun _ => ?_, fun _ v => ?_⟩
      · simp [counter_inc_by, hsome]
      · exact ⟨fun b => by simp [counter_vec_inc, counter_vec_inc_by, hsome],
          fun b v => by simp [counter_vec_inc_by, hsome]⟩
      · simp [histogram_observe, hsome]
    | MetricsHistogram hst =>
      refine ⟨fun _ => ?_, fun _ v => ?_, fun _ => ?_, fun h => absurd rfl (h hst)⟩
      · exact ⟨by simp [gauge_inc, hsome], by simp [gauge_dec, hsome],
          fun v => by simp [gauge_set, hsome]⟩
      · simp [counter_inc_by, hsome]
      · exact ⟨fun b => by simp [counter_vec_inc, counter_vec_inc_by, hsome],
          fun b v => by simp [counter_vec_inc_by, hsome]⟩

/-- A one-entry registry binding `"bytes_count"` to a plain Counter, as
`register_metrics` does. -/
def cexCounterMap : MetricsMap :=
  [("bytes_count", Metrics.MetricsCounter { constLabels := [], value := 0 })]

/-- C1 counterexample: `"bytes_count"` is present but bound to a Counter, the
wrong variant for `gauge_inc`; the claim demands exactly one error log line in
this case, but the call is a silent no-op emitting no log line at all. -/
theorem C1_counterexample :
    mapGet cexCounterMap "bytes_count"
        = some (Metrics.MetricsCounter { constLabels := [], value := 0 }) ∧
    gauge_inc cexCounterMap "bytes_count" = (cexCounterMap, ([] : List String)) :=
  ⟨rfl, rfl⟩

/-- C1 witness: the amended theorem applied to the empty registry and an
unregistered key. -/
theorem C1_witness :
    gauge_inc ([] : MetricsMap) "no_such_metric"
      = ([], [invalidMetricLog "no_such_metric"]) :=
  ((C1_update_noop_contract [] "no_such_metric").1 rfl).1

/-- A one-entry registry binding `"request_count"` to a fresh CounterVec, as
`register_metrics` creates it (no bucket touched yet). -/
def cexCounterVecMap : MetricsMap :=
  [("request_count",
      Metrics.MetricsCounterVec { constLabels := [], varLabel := "req", buckets := [] })]

/-- C2: the claim as frozen states that `counter_vec_inc_by(metrics, key, b, v)`
increases the `total` bucket by exactly `v` for every non-negative `v`.  The
code first performs the cast `let num = val as f64` (metrics.rs line 132) and
increments by `num`, and the cast is lossy above `2 ^ 53`: for
`v = 2 ^ 53 + 1 = 9007199254740993` the bucket increases by
`9007199254740992 ≠ v`.  Amended, proved here: the operation increases the
`total` bucket by the double value of `v` (which equals `v` whenever
`v ≤ 2 ^ 53`); when a bucket name `b ≠ "total"` is supplied it increases that
bucket by the same amount (supplying `b = "total"` increments the total
twice); every other bucket keeps its previous value, so buckets never
referenced remain at zero; no log is emitted and no other key changes. -/
theorem C2_counter_vec_inc_by_buckets (m : MetricsMap) (key : String)
    (c : CounterVecState) (b : Option String) (v : Nat)
    (hc : mapGet m key = some (Metrics.MetricsCounterVec c)) (hv : v < 2 ^ 64) :
    ∃ c2 : CounterVecState,
      mapGet (counter_vec_inc_by m key b v).1 key
          = some (Metrics.MetricsCounterVec c2) ∧
      (b ≠ some "total" →
        bucketGet c2.buckets "total"
          = bucketGet c.buckets "total" + ((f64OfNat v : Nat) : Rat)) ∧
      (b = some "total" →
        bucketGet c2.buckets "total"
          = bucketGet c.buckets "total" + ((f64OfNat v : Nat) : Rat)
              + ((f64OfNat v : Nat) : Rat)) ∧
      (∀ x, x ≠ "total" → b = some x →
        bucketGet c2.buckets x
          = bucketGet c.buckets x + ((f64OfNat v : Nat) : Rat)) ∧
      (∀ x, x ≠ "total" → b ≠ some x → bucketGet c2.buckets x = bucketGet c.buckets x) ∧
      (v ≤ 2 ^ 53 → ((f64OfNat v : Nat) : Rat) = (v : Rat)) ∧
      (counter_vec_inc_by m key b v).2 = [] ∧
      (∀ k2, k2 ≠ key → mapGet (counter_vec_inc_by m key b v).1 k2 = mapGet m k2) := by
  cases b with
  | none =>
    refine ⟨{ c with buckets := bucketIncBy c.buckets "total" ((f64OfNat v : Nat) : Rat) },
      ?_, ?_, ?_, ?_, ?_, ?_, ?_, ?_⟩
    · simp only [counter_vec_inc_by, hc]
      exact mapGet_mapSet_eq m key _ _ hc
    · intro _
      exact bucketGet_bucketIncBy_eq c.buckets "total" _
    · intro hcontra
      cases hcontra
    · intro x _ hcontra
      cases hcontra
    · intro x hx _
      exact bucketGet_bucketIncBy_ne c.buckets "total" x _ hx
    · intro hle
      rw [f64OfNat_of_le v hle]
    · simp [counter_vec_inc_by, hc]
    · intro k2 hk2
      simp only [counter_vec_inc_by, hc]
      exact mapGet_mapSet_ne m key k2 _ hk2
  | some bb =>
    refine ⟨{ c with buckets := bucketIncBy (bucketIncBy c.buckets "total" ((f64OfNat v : Nat) : Rat)) bb ((f64OfNat v : Nat) : Rat) }, ?_, ?_, ?_, ?_, ?_, ?_, ?_, ?_⟩
    · simp only [counter_vec_inc_by, hc]
      exact mapGet_mapSet_eq m key _ _ hc
    · intro hbb
      have hbbne : bb ≠ "total" := fun hh => hbb (by rw [hh])
      have hne : ("total" : String) ≠ bb := fun hh => hbbne hh.symm
      rw [bucketGet_bucketIncBy_ne _ bb "total" _ hne,
        bucketGet_bucketIncBy_eq c.buckets "total" _]
    · intro hbb
      have hbbt : bb = "total" := by
        cases hbb
        rfl
      subst hbbt
      rw [bucketGet_bucketIncBy_eq _ "total" _, bucketGet_bucketIncBy_eq c.buckets "total" _]
    · intro x hx hbx
      have hbbx : bb = x := by
        cases hbx
        rfl
      subst hbbx
      rw [bucketGet_bucketIncBy_eq _ bb _,
        bucketGet_bucketIncBy_ne c.buckets "total" bb _ hx]
    · intro x hx hbx
      have hbbx : bb ≠ x := fun hh => hbx (by rw [hh])
      have hxbb : x ≠ bb := fun hh => hbbx hh.symm
      rw [bucketGet_bucketIncBy_ne _ bb x _ hxbb,
        bucketGet_bucketIncBy_ne c.buckets "total" x _ hx]
    · intro hle
      rw [f64OfNat_of_le v hle]
    · simp [counter_vec_inc_by, hc]
    · intro k2 hk2
      simp only [counter_vec_inc_by, hc]
      exact mapGet_mapSet_ne m key k2 _ hk2

/-- C2 counterexample: incrementing the CounterVec under `"request_count"` by
`v = 2 ^ 53 + 1 = 9007199254740993` (a valid `usize`) raises the `total`
bucket from 0 to `9007199254740992`, an increase different from `v`, because
`val as f64` rounds `v` to the nearest double. -/
theorem C2_counterexample :
    cvBucket (counter_vec_inc_by cexCounterVecMap "request_count" none
        9007199254740993).1 "request_count" "total" = some (9007199254740992 : Rat) ∧
    (9007199254740992 : Rat) ≠ (9007199254740993 : Rat) := by
  constructor
  · decide
  · decide

/-- C2 witness: the amended theorem applied to a fresh CounterVec registry,
bucket `"GET"`, value 1. -/
theorem C2_witness :
    ∃ c2 : CounterVecState,
      mapGet (counter_vec_inc_by cexCounterVecMap "request_count" (some "GET") 1).1
          "request_count" = some (Metrics.MetricsCounterVec c2) ∧
      bucketGet c2.buckets "total" = 0 + ((f64OfNat 1 : Nat) : Rat) := by
  obtain ⟨c2, h1, h2, -, -, -, -, -, -⟩ :=
    C2_counter_vec_inc_by_buckets cexCounterVecMap "request_count"
      { constLabels := [], varLabel := "req", buckets := [] } (some "GET") 1 rfl
      (by decide)
  exact ⟨c2, h1, h2 (by decide)⟩

/-- An encoder whose encode step fails, for exercising the failure path. -/
def failingEncoder : TextEncoderModel :=
  { encode := fun _ => Except.error "could not encode metric family",
    format_type := "text/plain; version=0.0.4" }

/-- An encoder whose encode step succeeds with a fixed exposition body. -/
def okEncoder : TextEncoderModel :=
  { encode := fun _ => Except.ok "metric_body",
    format_type := "text/plain; version=0.0.4" }

/-- A sample scrape request. -/
def sampleRequest : HttpRequest :=
  { method := "GET", path := "/metrics", headers := [], body := "" }

/-- A second, different sample request. -/
def otherRequest : HttpRequest :=
  { method := "POST", path := "/anything", headers := [("x", "y")], body := "b" }

/-- C3 counterexample: when encoding the gathered snapshot fails, the claim
says the failure is logged and the server does not panic; but the handler
calls `unwrap()` on the encode result (metrics.rs line 289), so it panics,
and the handler contains no logging call, so the log-line list is empty. -/
theorem C3_counterexample :
    scrape_handler failingEncoder [] sampleRequest
      = (HandlerOutcome.panicked, ([] : List String)) := rfl

/-- C3: the claim as frozen states a per-request encode failure is logged and
the connection terminated without a panic.  The code unwraps the encode
result, so an encode failure panics the request handler and nothing is
logged.  Amended, proved here: if encoding the gathered snapshot fails, the
handler panics (terminating that request without a valid body) and emits no
log line; whether the listener survives the per-task panic is runtime
behaviour outside this file's source. -/
theorem C3_encode_failure_panics (encoder : TextEncoderModel)
    (families : List MetricFamily) (req : HttpRequest) (e : String)
    (he : encoder.encode families = Except.error e) :
    scrape_handler encoder families req = (HandlerOutcome.panicked, []) := by
  simp [scrape_handler, he]

/-- C3 witness: the amended theorem applied to the failing encoder. -/
theorem C3_witness :
    scrape_handler failingEncoder [] otherRequest
      = (HandlerOutcome.panicked, []) :=
  C3_encode_failure_panics failingEncoder [] otherRequest
    "could not encode metric family" rfl

/-- C6: for every incoming request — whatever its method, path, headers or
body — the handler returns status 200 with Content-Type set to the encoder's
declared format type and the encoded snapshot of the gathered metric families
as body, and the response does not depend on the request (the closure binds
the request as `_` and never inspects it).  Stated under the hypothesis that
encoding the snapshot succeeds, which is the case the claim describes. -/
theorem C6_handler_uniform_response (encoder : TextEncoderModel)
    (families : List MetricFamily) (buf : String) (r r2 : HttpRequest)
    (hok : encoder.encode families = Except.ok buf) :
    scrape_handler encoder families r
        = (HandlerOutcome.response 200 encoder.format_type buf, []) ∧
    scrape_handler encoder families r = scrape_handler encoder families r2 := by
  constructor
  · simp [scrape_handler, hok]
  · rfl

/-- C6 witness: the theorem applied to the succeeding encoder and two
different requests. -/
theorem C6_witness :
    scrape_handler okEncoder [] sampleRequest
        = (HandlerOutcome.response 200 okEncoder.format_type "metric_body", []) ∧
    scrape_handler okEncoder [] sampleRequest
        = scrape_handler okEncoder [] otherRequest :=
  C6_handler_uniform_response okEncoder [] "metric_body" sampleRequest otherRequest rfl

/-- C4: `register_metrics` returns a registry containing exactly the five
fixed keys, each bound to exactly one instrument of the stated kind —
`request_count`, `object_count` and `error_count` are CounterVecs (with
variable label `req`, `type` and `error` respectively), `bytes_count` is a
plain Counter, `assignment_time` is a Histogram — each carrying the
constructed label set as constant labels, and no other key is present. -/
theorem C4_register_metrics_contents (cfg : ConfigMetrics) (hostnameResult : Option String) :
    mapGet (register_metrics cfg hostnameResult).1 REQUEST_COUNT
        = some (Metrics.MetricsCounterVec
            { constLabels := (register_metrics cfg hostnameResult).2,
              varLabel := "req", buckets := [] }) ∧
    mapGet (register_metrics cfg hostnameResult).1 OBJECT_COUNT
        = some (Metrics.MetricsCounterVec
            { constLabels := (register_metrics cfg hostnameResult).2,
              varLabel := "type", buckets := [] }) ∧
    mapGet (register_metrics cfg hostnameResult).1 ERROR_COUNT
        = some (Metrics.MetricsCounterVec
            { constLabels := (register_metrics cfg hostnameResult).2,
              varLabel := "error", buckets := [] }) ∧
    mapGet (register_metrics cfg hostnameResult).1 BYTES_COUNT
        = some (Metrics.MetricsCounter
            { constLabels := (register_metrics cfg hostnameResult).2, value := 0 }) ∧
    mapGet (register_metrics cfg hostnameResult).1 ASSIGNMENT_TIME
        = some (Metrics.MetricsHistogram
            { constLabels := (register_metrics cfg hostnameResult).2,
              observations := [] }) ∧
    (register_metrics cfg hostnameResult).1.map Prod.fst
        = [REQUEST_COUNT, OBJECT_COUNT, ERROR_COUNT, BYTES_COUNT, ASSIGNMENT_TIME] :=
  ⟨rfl, rfl, rfl, rfl, rfl, rfl⟩

/-- C5: the label set built and published by `register_metrics` is exactly the
four-entry mapping service/server/datacenter from the configuration plus
zonename from the hostname; consequently two configurations run on the same
host (same resolved hostname) produce label sets that agree on `zonename` and
agree on `service`, `server`, `datacenter` exactly when the configurations
agree on those fields. -/
theorem C5_label_set (cfg cfg2 : ConfigMetrics) (hn : String) :
    (register_metrics cfg (some hn)).2
        = [("service", cfg.service), ("server", cfg.server),
           ("datacenter", cfg.datacenter), ("zonename", hn)] ∧
    mapGet (register_metrics cfg (some hn)).2 "zonename"
        = mapGet (register_metrics cfg2 (some hn)).2 "zonename" ∧
    (mapGet (register_metrics cfg (some hn)).2 "service"
        = mapGet (register_metrics cfg2 (some hn)).2 "service" ↔
      cfg.service = cfg2.service) ∧
    (mapGet (register_metrics cfg (some hn)).2 "server"
        = mapGet (register_metrics cfg2 (some hn)).2 "server" ↔
      cfg.server = cfg2.server) ∧
    (mapGet (register_metrics cfg (some hn)).2 "datacenter"
        = mapGet (register_metrics cfg2 (some hn)).2 "datacenter" ↔
      cfg.datacenter = cfg2.datacenter) := by
  refine ⟨rfl, rfl, ?_, ?_, ?_⟩ <;> simp [register_metrics, mapGet]

/-- C7: when hostname resolution fails (`gethostname().into_string()` returns
an error, modelled as `none`), `register_metrics` substitutes the literal
`"unknown"` as the `zonename` label value and still completes construction of
the full five-instrument registry — the failure never aborts registration. -/
theorem C7_hostname_fallback (cfg : ConfigMetrics) :
    mapGet (register_metrics cfg none).2 "zonename" = some "unknown" ∧
    (register_metrics cfg none).1.map Prod.fst
        = [REQUEST_COUNT, OBJECT_COUNT, ERROR_COUNT, BYTES_COUNT, ASSIGNMENT_TIME] :=
  ⟨rfl, rfl⟩

/-- A one-entry registry binding `"inflight"` to a Gauge holding 5. -/
def cexGaugeMap : MetricsMap :=
  [("inflight", Metrics.MetricsGauge { constLabels := [], value := 5 })]

/-- C8 counterexample: the claim states that for every non-negative integer
`v`, `gauge_set` followed by a read returns exactly `v`.  For
`v = 2 ^ 53 + 1 = 9007199254740993` (a valid `usize`) the cast
`val as f64` (metrics.rs line 104) rounds to the nearest double, so the read
returns `9007199254740992 ≠ v`. -/
theorem C8_counterexample :
    gaugeValue (gauge_set cexGaugeMap "inflight" 9007199254740993).1 "inflight"
        = some (9007199254740992 : Rat) ∧
    (9007199254740992 : Rat) ≠ (9007199254740993 : Rat) := by
  constructor
  · decide
  · decide

/-- C8: amended and proved — for a key bound to a Gauge, `gauge_set` stores
the double value of `v` independently of the previous gauge state
(last-write-wins, no accumulation), and an immediate read returns exactly `v`
whenever `v ≤ 2 ^ 53`, the range on which the `usize`-to-`f64` cast is exact;
no log is emitted and no other key changes. -/
theorem C8_gauge_set_last_write_wins (m : MetricsMap) (key : String)
    (g : GaugeState) (v : Nat)
    (hg : mapGet m key = some (Metrics.MetricsGauge g)) (hv : v < 2 ^ 64) :
    gaugeValue (gauge_set m key v).1 key = some ((f64OfNat v : Nat) : Rat) ∧
    (v ≤ 2 ^ 53 → gaugeValue (gauge_set m key v).1 key = some ((v : Nat) : Rat)) ∧
    (gauge_set m key v).2 = [] ∧
    (∀ k2, k2 ≠ key → mapGet (gauge_set m key v).1 k2 = mapGet m k2) := by
  have hstore : mapGet (gauge_set m key v).1 key
      = some (Metrics.MetricsGauge { g with value := ((f64OfNat v : Nat) : Rat) }) := by
    simp only [gauge_set, hg]
    exact mapGet_mapSet_eq m key _ _ hg
  refine ⟨?_, ?_, ?_, ?_⟩
  · simp [gaugeValue, hstore]
  · intro hle
    simp [gaugeValue, hstore, f64OfNat_of_le v hle]
  · simp [gauge_set, hg]
  · intro k2 hk2
    simp only [gauge_set, hg]
    exact mapGet_mapSet_ne m key k2 _ hk2

/-- C8 witness: the amended theorem applied to a gauge holding 5 and `v = 7`:
the read returns exactly 7, the previous value 5 is overwritten. -/
theorem C8_witness :
    gaugeValue (gauge_set cexGaugeMap "inflight" 7).1 "inflight"
      = some ((7 : Nat) : Rat) :=
  (C8_gauge_set_last_write_wins cexGaugeMap "inflight"
      { constLabels := [], value := 5 } 7 rfl (by decide)).2.1 (by decide)

/-- No key of the registry built by `register_metrics` is bound to the Gauge
variant: the five instruments are three CounterVecs, a Counter and a
Histogram. -/
theorem register_metrics_no_gauge (cfg : ConfigMetrics) (hostnameResult : Option String)
    (key : String) (inst : Metrics)
    (h : mapGet (register_metrics cfg hostnameResult).1 key = some inst) :
    isGauge inst = false := by
  simp only [register_metrics, mapGet] at h
  split at h
  · cases h
    rfl
  · split at h
    · cases h
      rfl
    · split at h
      · cases h
        rfl
      · split at h
        · cases h
          rfl
        · split at h
          · cases h
            rfl
          · cases h

/-- The three gauge operations leave the registry unchanged whenever the key
is not bound to a Gauge (absent key: logs and leaves the map; wrong variant:
silent no-op). -/
theorem gauge_ops_fix_gauge_free_map (m : MetricsMap) (key : String)
    (hng : ∀ inst, mapGet m key = some inst → isGauge inst = false) :
    (gauge_inc m key).1 = m ∧ (gauge_dec m key).1 = m ∧
    ∀ v, (gauge_set m key v).1 = m := by
  cases hm : mapGet m key with
  | none => exact ⟨by simp [gauge_inc, hm], by simp [gauge_dec, hm],
      fun v => by simp [gauge_set, hm]⟩
  | some inst =>
    have hfalse := hng inst hm
    cases inst with
    | MetricsCounterVec c => exact ⟨by simp [gauge_inc, hm], by simp [gauge_dec, hm],
        fun v => by simp [gauge_set, hm]⟩
    | MetricsCounter c => exact ⟨by simp [gauge_inc, hm], by simp [gauge_dec, hm],
        fun v => by simp [gauge_set, hm]⟩
    | MetricsGauge g => cases (by simp [isGauge] at hfalse : False)
    | MetricsHistogram hs => exact ⟨by simp [gauge_inc, hm], by simp [gauge_dec, hm],
        fun v => by simp [gauge_set, hm]⟩

/-- C10: the registry returned by `register_metrics` never contains a Gauge
under any key, so every call to `gauge_inc`, `gauge_dec` or `gauge_set` on it
— in particular on each of the five well-known keys — changes no instrument:
the gauge update API can never take effect on the standard registry. -/
theorem C10_no_gauge_in_registry (cfg : ConfigMetrics) (hostnameResult : Option String) :
    (∀ key inst, mapGet (register_metrics cfg hostnameResult).1 key = some inst →
      ∀ g, inst ≠ Metrics.MetricsGauge g) ∧
    (∀ key,
      (gauge_inc (register_metrics cfg hostnameResult).1 key).1
          = (register_metrics cfg hostnameResult).1 ∧
      (gauge_dec (register_metrics cfg hostnameResult).1 key).1
          = (register_metrics cfg hostnameResult).1 ∧
      ∀ v, (gauge_set (register_metrics cfg hostnameResult).1 key v).1
          = (register_metrics cfg hostnameResult).1) := by
  constructor
  · intro key inst h g hgauge
    have := register_metrics_no_gauge cfg hostnameResult key inst h
    rw [hgauge] at this
    simp [isGauge] at this
  · intro key
    exact gauge_ops_fix_gauge_free_map (register_metrics cfg hostnameResult).1 key
      (register_metrics_no_gauge cfg hostnameResult key)

/-- C10 witness: on the default configuration's registry, `gauge_inc` on the
well-known key `"request_count"` changes nothing. -/
theorem C10_witness :
    (gauge_inc (register_metrics defaultConfigMetrics none).1 "request_count").1
      = (register_metrics defaultConfigMetrics none).1 :=
  ((C10_no_gauge_in_registry defaultConfigMetrics none).2 "request_count").1
